import Mathlib

set_option maxRecDepth 10000

/-!
Verification of the FIPS tunnel-activation module of delivery-cli
(`src/delivery/fips/mod.rs`).

The module is embedded shallowly:

* `Config` mirrors the fields of the runtime configuration that this
  module reads (`fips`, `server`, `fips_git_port`, `api_port`).
* File-system and process effects are made explicit through a `World`
  record that accumulates the created directories, the written files,
  the certificate-fetch invocations and the blocking command
  invocations; the caller-owned child-process collection is threaded
  separately, as in the Rust signature.
* External collaborators (`utils::stunnel_path`, the existence check on
  it, `utils::copy_automate_nginx_cert`, and the command runner behind
  `generate_command_from_string`/`output`/`spawn`) live in an `Env`
  record of oracles, since the spec treats them as external.
* The platform conditional `cfg!(target_os = "windows")` becomes an
  explicit `windows : Bool` argument.

Fallible operations return `Except DeliveryError` paired with the
resulting `World`, so that the partial effects present at the moment of
failure stay observable.
-/

namespace DeliveryFips

/-- Error kinds of `errors::Kind` used by this module.  The source uses
`Kind::FipsNotSupportedForChefDKPlatform` for a missing tunnel binary
(the spec's `UnsupportedPlatform`), and the `validate!` macro produces a
missing-required-field error naming the absent configuration field (the
spec's `MissingRequiredField`).  Collaborator failures (certificate
fetch, command construction, spawn) are carried abstractly. -/
inductive Kind where
  | FipsNotSupportedForChefDKPlatform : Kind
  | MissingRequiredField : String → Kind
  | CertificateFetchError : Kind
  | ProcessLaunchError : Kind
  deriving DecidableEq, Repr

/-- `errors::DeliveryError`: an error kind plus optional detail. -/
structure DeliveryError where
  kind : Kind
  detail : Option String
  deriving DecidableEq, Repr

/-- The slice of `config::Config` that `fips/mod.rs` reads. -/
structure Config where
  fips : Option Bool
  server : Option String
  fips_git_port : Option String
  api_port : Option String
  deriving DecidableEq, Repr

/-- Modelled from the spec: `Config::set_fips_git_port` is not under
`src/`; per §3 the configuration is "mutated only through an explicit
setter that fills in the FIPS git port", so the setter stores the
supplied value in the `fips_git_port` field. -/
def Config.set_fips_git_port (config : Config) (port : String) : Config :=
  { config with fips_git_port := some port }

/-- A spawned child process, identified by the command line it runs. -/
def Child : Type := String

instance : DecidableEq Child := inferInstanceAs (DecidableEq String)

/-- Observable state of the outside world: directories created, files on
disk (path with content), certificate-fetch invocations
(server, port), and command lines handed to the process runner
(blocking invocations and spawns alike), in order. -/
structure World where
  dirs : List String
  files : List (String × String)
  fetchCalls : List (String × String)
  execCalls : List String
  deriving DecidableEq, Repr

/-- The world with no recorded effects. -/
def World.empty : World :=
  { dirs := [], files := [], fetchCalls := [], execCalls := [] }

/-- External collaborators, abstracted as oracles. -/
structure Env where
  /-- The user home directory resolved by `utils::home_dir`. -/
  home : String
  /-- `utils::stunnel_path()`: resolved path of the tunnel binary. -/
  stunnel_path : String
  /-- `Path::exists` on the resolved binary path. -/
  pathExists : String → Bool
  /-- `utils::copy_automate_nginx_cert(server, port)`: fetches PEM text. -/
  copy_automate_nginx_cert : String → String → Except DeliveryError String
  /-- `generate_command_from_string(cmd)` followed by `.output()`:
  blocking invocation of a command line. -/
  output : String → Except DeliveryError Unit
  /-- `generate_command_from_string(cmd)` followed by `.spawn()`:
  non-blocking spawn of a command line, yielding a child handle. -/
  spawn : String → Except DeliveryError Child

/-- Modelled from the spec: `utils::home_dir(&parts)` is not under
`src/`; per §2 the path resolver returns locations under the user's
tool-specific state directory, joining the given relative components
onto the home directory with `/`. -/
def home_dir (home : String) (parts : List String) : String :=
  parts.foldl (fun acc part => acc ++ "/" ++ part) home

/-- Look up a file's content by path. -/
def getFile (p : String) : List (String × String) → Option String
  | [] => none
  | (q, d) :: rest => if q = p then some d else getFile p rest

/-- Replace (or insert) a file's content. -/
def setFile (p c : String) : List (String × String) → List (String × String)
  | [] => [(p, c)]
  | (q, d) :: rest => if q = p then (q, c) :: rest else (q, d) :: setFile p c rest

/-- `std::fs::create_dir_all`: records the directory (by the exact path
string handed to it, trailing separator included) if absent. -/
def createDirAll (d : String) (w : World) : World :=
  if d ∈ w.dirs then w else { w with dirs := w.dirs ++ [d] }

/-- `File::create`: truncates or creates the file at the path. -/
def fileCreate (p : String) (w : World) : World :=
  { w with files := setFile p "" w.files }

/-- `write_all` on an open file: appends bytes to its content. -/
def writeAll (p s : String) (w : World) : World :=
  { w with files := setFile p ((getFile p w.files).getD "" ++ s) w.files }

/-- `stunnel_config_path()` from the source: a fixed system path on
Windows, `~/.chefdk/etc/stunnel.conf` elsewhere. -/
def stunnel_config_path (windows : Bool) (home : String) : String :=
  if windows then "C:\\opscode\\chefdk\\embedded\\stunnel.conf"
  else home_dir home [".chefdk/etc/stunnel.conf"]

/-- The platform newline chosen by `generate_stunnel_config`. -/
def newline_str (windows : Bool) : String :=
  if windows then "\r\n" else "\n"

/-- `generate_stunnel_config(server, fips_git_port)` from the source:
creates `~/.chefdk/etc/` and `~/.chefdk/log/`, truncates the config
file, then appends the directives one `write_all` at a time.  The
file-system operations themselves are modelled as succeeding, so the
function returns the updated world directly. -/
def generate_stunnel_config (windows : Bool) (home : String)
    (server fips_git_port : String) (w : World) : World :=
  let w := createDirAll (home_dir home [".chefdk/etc/"]) w
  let w := createDirAll (home_dir home [".chefdk/log/"]) w
  let nl := newline_str windows
  let stunnel_path := stunnel_config_path windows home
  let w := fileCreate stunnel_path w
  let w := writeAll stunnel_path ("fips = yes" ++ nl) w
  let w := writeAll stunnel_path ("client = yes" ++ nl) w
  let w := writeAll stunnel_path
    ("output = " ++ home_dir home [".chefdk/log/stunnel.log"] ++ nl) w
  let w := if ¬windows then writeAll stunnel_path "foreground = quiet\n" w else w
  let w := writeAll stunnel_path ("[git]" ++ nl) w
  let w := writeAll stunnel_path ("accept = " ++ fips_git_port ++ nl) w
  let w := writeAll stunnel_path ("connect = " ++ server ++ ":8989" ++ nl) w
  let w := writeAll stunnel_path ("checkHost = " ++ server ++ nl) w
  let w := writeAll stunnel_path ("verifyChain = yes" ++ nl) w
  let w := writeAll stunnel_path ("verify = 3" ++ nl) w
  let w := writeAll stunnel_path
    ("CAfile = " ++ home_dir home [".chefdk/etc/automate-nginx-cert.pem"] ++ nl) w
  w

/-- `write_stunnel_cert_file(server, api_port)` from the source: fetch
the certificate via the collaborator (the invocation is recorded), then
create the certificate file and write the fetched text verbatim. -/
def write_stunnel_cert_file (env : Env) (server api_port : String)
    (w : World) : Except DeliveryError Unit × World :=
  let w := { w with fetchCalls := w.fetchCalls ++ [(server, api_port)] }
  match env.copy_automate_nginx_cert server api_port with
  | Except.error e => (Except.error e, w)
  | Except.ok cert_string =>
    let path := home_dir env.home [".chefdk/etc/automate-nginx-cert.pem"]
    let w := fileCreate path w
    let w := writeAll path cert_string w
    (Except.ok (), w)

/-- `start_stunnel(child_processes)` from the source.  On Windows:
three blocking invocations, `-install -quiet`, `-start -quiet`,
`-reload -quiet`, each issued only after the previous one succeeded
(each `try!` short-circuits), with no handle registered.  Elsewhere:
one spawn of `<binary> <config path>` whose child handle is pushed onto
the caller's collection. -/
def start_stunnel (windows : Bool) (env : Env)
    (child_processes : List Child) (w : World) :
    Except DeliveryError Unit × World × List Child :=
  if windows then
    let c1 := env.stunnel_path ++ " -install -quiet"
    let w := { w with execCalls := w.execCalls ++ [c1] }
    match env.output c1 with
    | Except.error e => (Except.error e, w, child_processes)
    | Except.ok _ =>
      let c2 := env.stunnel_path ++ " -start -quiet"
      let w := { w with execCalls := w.execCalls ++ [c2] }
      match env.output c2 with
      | Except.error e => (Except.error e, w, child_processes)
      | Except.ok _ =>
        let c3 := env.stunnel_path ++ " -reload -quiet"
        let w := { w with execCalls := w.execCalls ++ [c3] }
        match env.output c3 with
        | Except.error e => (Except.error e, w, child_processes)
        | Except.ok _ => (Except.ok (), w, child_processes)
  else
    let unix_stunnel_config_path := stunnel_config_path false env.home
    let cmd := env.stunnel_path ++ " " ++ unix_stunnel_config_path
    let w := { w with execCalls := w.execCalls ++ [cmd] }
    match env.spawn cmd with
    | Except.error e => (Except.error e, w, child_processes)
    | Except.ok child => (Except.ok (), w, child_processes ++ [child])

/-- Modelled from the spec: the `validate!` macro is not under `src/`;
per §4.1/§7 it fails with a missing-required-field error naming the
absent configuration field. -/
def missingFieldError (field : String) : DeliveryError :=
  { kind := Kind.MissingRequiredField field, detail := none }

/-- `setup_and_start_stunnel_if_fips_mode(config, child_processes)`
from the source: no-op unless `config.fips` is `Some(true)`; then check
the tunnel binary exists, validate `server` and `fips_git_port`,
materialize the config, write the certificate (API port defaulting to
`"443"`), and launch the tunnel. -/
def setup_and_start_stunnel_if_fips_mode (windows : Bool) (env : Env)
    (config : Config) (child_processes : List Child) (w : World) :
    Except DeliveryError Unit × World × List Child :=
  match config.fips with
  | none => (Except.ok (), w, child_processes)
  | some fips =>
    if fips then
      if ¬ env.pathExists env.stunnel_path then
        (Except.error
          { kind := Kind.FipsNotSupportedForChefDKPlatform, detail := none },
         w, child_processes)
      else
        match config.server with
        | none => (Except.error (missingFieldError "server"), w, child_processes)
        | some server =>
          match config.fips_git_port with
          | none =>
            (Except.error (missingFieldError "fips_git_port"), w, child_processes)
          | some fips_git_port =>
            let w := generate_stunnel_config windows env.home server fips_git_port w
            match write_stunnel_cert_file env server
                ((config.api_port).getD "443") w with
            | (Except.error e, w) => (Except.error e, w, child_processes)
            | (Except.ok _, w) =>
              match start_stunnel windows env child_processes w with
              | (r, w, cps) => (r, w, cps)
    else (Except.ok (), w, child_processes)

/-- `merge_fips_options_and_config(fips, fips_git_port, config)` from
the source: fill in the FIPS flag only when absent, then always set the
FIPS git port through the setter; never fails. -/
def merge_fips_options_and_config (fips : Bool) (fips_git_port : String)
    (config : Config) : Except DeliveryError Config :=
  let config :=
    if (config.fips).isNone then { config with fips := some fips } else config
  Except.ok (config.set_fips_git_port fips_git_port)

/-- The canonical directive sequence of spec §4.3, written from the
spec's words: one directive per line, in the stated order, with
`foreground = quiet` emitted only on non-Windows platforms.  This is
the refinement target that `generate_stunnel_config` is compared
against; it is deliberately phrased independently of the write
sequence, as a list of lines. -/
def canonical_config_lines (windows : Bool)
    (log_path cert_path server fips_git_port : String) : List String :=
  ["fips = yes", "client = yes", "output = " ++ log_path]
  ++ (if windows then [] else ["foreground = quiet"])
  ++ ["[git]",
      "accept = " ++ fips_git_port,
      "connect = " ++ server ++ ":8989",
      "checkHost = " ++ server,
      "verifyChain = yes",
      "verify = 3",
      "CAfile = " ++ cert_path]

/-- Canonical file content per spec §4.3: each canonical line
terminated by `\r\n` on Windows and `\n` otherwise. -/
def canonical_config_content (windows : Bool)
    (log_path cert_path server fips_git_port : String) : String :=
  String.join
    ((canonical_config_lines windows log_path cert_path server fips_git_port).map
      (fun line => line ++ newline_str windows))

lemma getFile_setFile_self (p c : String) (fs : List (String × String)) :
    getFile p (setFile p c fs) = some c := by
  induction fs with
  | nil => simp [setFile, getFile]
  | cons hd tl ih =>
    obtain ⟨q, d⟩ := hd
    by_cases h : q = p <;> simp [setFile, getFile, h, ih]

lemma createDirAll_files (d : String) (w : World) :
    (createDirAll d w).files = w.files := by
  unfold createDirAll
  split <;> rfl

lemma createDirAll_fetchCalls (d : String) (w : World) :
    (createDirAll d w).fetchCalls = w.fetchCalls := by
  unfold createDirAll
  split <;> rfl

lemma writeAll_files (p s : String) (w : World) :
    (writeAll p s w).files = setFile p ((getFile p w.files).getD "" ++ s) w.files :=
  rfl

lemma writeAll_fetchCalls (p s : String) (w : World) :
    (writeAll p s w).fetchCalls = w.fetchCalls := rfl

lemma fileCreate_fetchCalls (p : String) (w : World) :
    (fileCreate p w).fetchCalls = w.fetchCalls := rfl

/-- The content written to the config file by `generate_stunnel_config`
coincides, for every platform, home, server and port, with the
canonical §4.3 sequence. -/
lemma generate_stunnel_config_content (windows : Bool)
    (home server fips_git_port : String) (w : World) :
    getFile (stunnel_config_path windows home)
      (generate_stunnel_config windows home server fips_git_port w).files
    = some (canonical_config_content windows
        (home_dir home [".chefdk/log/stunnel.log"])
        (home_dir home [".chefdk/etc/automate-nginx-cert.pem"])
        server fips_git_port) := by
  cases windows <;>
    simp [generate_stunnel_config, writeAll, fileCreate, createDirAll_files,
      getFile_setFile_self, canonical_config_content, canonical_config_lines,
      newline_str, String.join, String.append_assoc]

/-- `generate_stunnel_config` never touches the certificate-fetch log. -/
lemma generate_stunnel_config_fetchCalls (windows : Bool)
    (home server fips_git_port : String) (w : World) :
    (generate_stunnel_config windows home server fips_git_port w).fetchCalls
    = w.fetchCalls := by
  cases windows <;>
    simp [generate_stunnel_config, writeAll, fileCreate, createDirAll_fetchCalls]

/-- The dirs recorded by `generate_stunnel_config`: the prior dirs plus
(at most) the `.chefdk/etc/` and `.chefdk/log/` directories. -/
lemma generate_stunnel_config_dirs (windows : Bool)
    (home server fips_git_port : String) (w : World) :
    (generate_stunnel_config windows home server fips_git_port w).dirs
    = (createDirAll (home_dir home [".chefdk/log/"])
        (createDirAll (home_dir home [".chefdk/etc/"]) w)).dirs := by
  cases windows <;> simp [generate_stunnel_config, writeAll, fileCreate]

/-- A directory passed to `createDirAll` is present afterwards. -/
lemma mem_createDirAll_self (d : String) (w : World) :
    d ∈ (createDirAll d w).dirs := by
  unfold createDirAll
  split <;> simp_all

/-- `createDirAll` preserves previously recorded directories. -/
lemma mem_createDirAll_of_mem (d e : String) (w : World) (h : e ∈ w.dirs) :
    e ∈ (createDirAll d w).dirs := by
  unfold createDirAll
  split <;> simp_all

/-- The fetch log after `write_stunnel_cert_file` is the prior log with
the `(server, api_port)` invocation appended, whatever the fetch
returns. -/
lemma write_stunnel_cert_file_fetchCalls (env : Env) (server api_port : String)
    (w : World) :
    ((write_stunnel_cert_file env server api_port w).2).fetchCalls
    = w.fetchCalls ++ [(server, api_port)] := by
  unfold write_stunnel_cert_file
  cases env.copy_automate_nginx_cert server api_port <;>
    simp [fileCreate, writeAll]

/-- `start_stunnel` never touches the certificate-fetch log. -/
lemma start_stunnel_fetchCalls (windows : Bool) (env : Env)
    (child_processes : List Child) (w : World) :
    ((start_stunnel windows env child_processes w).2.1).fetchCalls
    = w.fetchCalls := by
  cases windows
  · unfold start_stunnel
    simp only [Bool.false_eq_true, if_false]
    cases env.spawn (env.stunnel_path ++ " " ++ stunnel_config_path false env.home) <;> rfl
  · unfold start_stunnel
    simp only [if_true]
    cases env.output (env.stunnel_path ++ " -install -quiet") <;> try rfl
    cases env.output (env.stunnel_path ++ " -start -quiet") <;> try rfl
    cases env.output (env.stunnel_path ++ " -reload -quiet") <;> rfl

/-- A concrete environment in which every collaborator succeeds, used
to instantiate the theorems below at concrete inputs. -/
def envPosix : Env :=
  { home := "h"
    stunnel_path := "/bin/stunnel"
    pathExists := fun _ => true
    copy_automate_nginx_cert := fun _ _ => Except.ok "PEMCERT"
    output := fun _ => Except.ok ()
    spawn := fun c => Except.ok c }

/-- `envPosix` with the tunnel binary absent from disk. -/
def envNoBinary : Env :=
  { envPosix with pathExists := fun _ => false }

/-- A runtime configuration with every optional field absent. -/
def emptyConfig : Config :=
  { fips := none, server := none, fips_git_port := none, api_port := none }

/-- C1: for every platform, server hostname and FIPS git port string,
successful config materialization leaves the config file with content
byte-identical to the canonical §4.3 eleven-directive sequence (ten on
Windows, where `foreground = quiet` is omitted) with those values
substituted, each line terminated by `\r\n` on Windows and `\n`
otherwise. -/
theorem generate_config_is_canonical (windows : Bool)
    (home server fips_git_port : String) (w : World) :
    getFile (stunnel_config_path windows home)
      (generate_stunnel_config windows home server fips_git_port w).files
    = some (canonical_config_content windows
        (home_dir home [".chefdk/log/stunnel.log"])
        (home_dir home [".chefdk/etc/automate-nginx-cert.pem"])
        server fips_git_port) :=
  generate_stunnel_config_content windows home server fips_git_port w

/-- C2: if the configuration's FIPS flag is absent or present-and-false,
`setup_and_start_stunnel_if_fips_mode` returns success, writes no file,
creates no directory, fetches no certificate, issues no command, and
leaves the child-process collection unchanged (the entire world and the
collection are returned exactly as given). -/
theorem fips_off_is_noop (windows : Bool) (env : Env) (config : Config)
    (child_processes : List Child) (w : World)
    (h : config.fips = none ∨ config.fips = some false) :
    setup_and_start_stunnel_if_fips_mode windows env config child_processes w
    = (Except.ok (), w, child_processes) := by
  rcases h with h | h <;> simp [setup_and_start_stunnel_if_fips_mode, h]

/-- Witness for C2 at the all-absent configuration. -/
theorem fips_off_is_noop_witness :
    setup_and_start_stunnel_if_fips_mode false envPosix emptyConfig [] World.empty
    = (Except.ok (), World.empty, ([] : List Child)) :=
  fips_off_is_noop false envPosix emptyConfig [] World.empty (Or.inl rfl)

/-- C3: if FIPS mode is requested but the tunnel binary's resolved path
does not exist, activation fails with the source's
`FipsNotSupportedForChefDKPlatform` kind (the spec's
`UnsupportedPlatform`), and the world — so in particular the config
file and the certificate file — is untouched. -/
theorem fips_missing_binary_fails (windows : Bool) (env : Env)
    (config : Config) (child_processes : List Child) (w : World)
    (h1 : config.fips = some true)
    (h2 : env.pathExists env.stunnel_path = false) :
    setup_and_start_stunnel_if_fips_mode windows env config child_processes w
    = (Except.error
        { kind := Kind.FipsNotSupportedForChefDKPlatform, detail := none },
       w, child_processes) := by
  simp [setup_and_start_stunnel_if_fips_mode, h1, h2]

/-- Witness for C3: FIPS requested, binary absent. -/
theorem fips_missing_binary_fails_witness :
    setup_and_start_stunnel_if_fips_mode false envNoBinary
      { emptyConfig with fips := some true } [] World.empty
    = (Except.error
        { kind := Kind.FipsNotSupportedForChefDKPlatform, detail := none },
       World.empty, ([] : List Child)) :=
  fips_missing_binary_fails false envNoBinary
    { emptyConfig with fips := some true } [] World.empty rfl rfl

/-- C4: with FIPS requested and the binary present, a missing `server`
field fails with the missing-required-field error naming `server`, and
a present `server` with a missing `fips_git_port` fails naming
`fips_git_port`; in both cases the world and the child-process
collection are returned untouched. -/
theorem fips_missing_field_fails (windows : Bool) (env : Env)
    (config : Config) (child_processes : List Child) (w : World)
    (h1 : config.fips = some true)
    (h2 : env.pathExists env.stunnel_path = true) :
    (config.server = none →
      setup_and_start_stunnel_if_fips_mode windows env config child_processes w
      = (Except.error (missingFieldError "server"), w, child_processes)) ∧
    (∀ s, config.server = some s → config.fips_git_port = none →
      setup_and_start_stunnel_if_fips_mode windows env config child_processes w
      = (Except.error (missingFieldError "fips_git_port"), w, child_processes)) := by
  constructor
  · intro hs
    simp [setup_and_start_stunnel_if_fips_mode, h1, h2, hs]
  · intro s hs hp
    simp [setup_and_start_stunnel_if_fips_mode, h1, h2, hs, hp]

/-- Witness for C4 at a configuration with `server` absent. -/
theorem fips_missing_field_fails_witness :
    setup_and_start_stunnel_if_fips_mode false envPosix
      { emptyConfig with fips := some true } [] World.empty
    = (Except.error (missingFieldError "server"), World.empty,
       ([] : List Child)) :=
  (fips_missing_field_fails false envPosix
    { emptyConfig with fips := some true } [] World.empty rfl rfl).1 rfl

/-- C5: the merge always succeeds, always overwrites the FIPS git port
with the supplied value, keeps an already-present FIPS flag, and uses
the supplied flag only when the prior flag was absent. -/
theorem merge_keeps_prior_fips_flag (fips : Bool) (fips_git_port : String)
    (config : Config) :
    ∃ merged,
      merge_fips_options_and_config fips fips_git_port config
        = Except.ok merged ∧
      merged.fips_git_port = some fips_git_port ∧
      (∀ b, config.fips = some b → merged.fips = some b) ∧
      (config.fips = none → merged.fips = some fips) := by
  cases h : config.fips with
  | none =>
    refine ⟨{ config with fips := some fips, fips_git_port := some fips_git_port },
      ?_, rfl, ?_, fun _ => rfl⟩
    · simp [merge_fips_options_and_config, Config.set_fips_git_port, h]
    · intro b hb
      exact Option.noConfusion hb
  | some b0 =>
    refine ⟨{ config with fips_git_port := some fips_git_port },
      ?_, rfl, ?_, ?_⟩
    · simp [merge_fips_options_and_config, Config.set_fips_git_port, h]
    · intro b hb
      show config.fips = some b
      rw [h]
      exact hb
    · intro hn
      exact Option.noConfusion hn

/-- Witness for C5: a prior `fips = some false` survives a supplied
`true`, and the port is overwritten. -/
theorem merge_keeps_prior_fips_flag_witness :
    ∃ merged,
      merge_fips_options_and_config true "1234"
        { emptyConfig with fips := some false } = Except.ok merged ∧
      merged.fips_git_port = some "1234" ∧
      (∀ b, ({ emptyConfig with fips := some false } : Config).fips = some b →
        merged.fips = some b) ∧
      (({ emptyConfig with fips := some false } : Config).fips = none →
        merged.fips = some true) :=
  merge_keeps_prior_fips_flag true "1234" { emptyConfig with fips := some false }

/-- C6: config materialization is a deterministic function of its
inputs: running it twice in a row yields the same file content as once,
and the content does not depend on the prior world at all. -/
theorem generate_config_deterministic (windows : Bool)
    (home server fips_git_port : String) (w w2 : World) :
    getFile (stunnel_config_path windows home)
      (generate_stunnel_config windows home server fips_git_port
        (generate_stunnel_config windows home server fips_git_port w)).files
    = getFile (stunnel_config_path windows home)
        (generate_stunnel_config windows home server fips_git_port w).files
    ∧ getFile (stunnel_config_path windows home)
        (generate_stunnel_config windows home server fips_git_port w).files
      = getFile (stunnel_config_path windows home)
          (generate_stunnel_config windows home server fips_git_port w2).files := by
  constructor <;> simp [generate_stunnel_config_content]

/-- C7: once activation passes validation, the certificate-retrieval
collaborator is invoked with port `"443"` when the configuration's API
port is absent, and with the configured value when it is present. -/
theorem cert_fetch_port_defaults_to_443 (windows : Bool) (env : Env)
    (config : Config) (child_processes : List Child) (w : World)
    (server gitport : String)
    (h1 : config.fips = some true)
    (h2 : env.pathExists env.stunnel_path = true)
    (h3 : config.server = some server)
    (h4 : config.fips_git_port = some gitport) :
    (config.api_port = none →
      ((setup_and_start_stunnel_if_fips_mode windows env config
          child_processes w).2.1).fetchCalls
      = w.fetchCalls ++ [(server, "443")]) ∧
    (∀ a, config.api_port = some a →
      ((setup_and_start_stunnel_if_fips_mode windows env config
          child_processes w).2.1).fetchCalls
      = w.fetchCalls ++ [(server, a)]) := by
  have key : ((setup_and_start_stunnel_if_fips_mode windows env config
      child_processes w).2.1).fetchCalls
      = w.fetchCalls ++ [(server, (config.api_port).getD "443")] := by
    simp only [setup_and_start_stunnel_if_fips_mode, h1, h2, h3, h4]
    rcases hw : write_stunnel_cert_file env server ((config.api_port).getD "443")
        (generate_stunnel_config windows env.home server gitport w) with ⟨r, w2⟩
    have hfc : w2.fetchCalls = w.fetchCalls ++ [(server, (config.api_port).getD "443")] := by
      have h5 := write_stunnel_cert_file_fetchCalls env server
        ((config.api_port).getD "443")
        (generate_stunnel_config windows env.home server gitport w)
      rw [hw, generate_stunnel_config_fetchCalls] at h5
      exact h5
    cases r with
    | error e => simp [hw, hfc]
    | ok u => simp [hw, start_stunnel_fetchCalls, hfc]
  constructor
  · intro hapi
    rw [hapi] at key
    exact key
  · intro a hapi
    rw [hapi] at key
    exact key

/-- Witness for C7: no API port configured, fetch invoked with "443". -/
theorem cert_fetch_port_defaults_to_443_witness :
    ((setup_and_start_stunnel_if_fips_mode false envPosix
        { fips := some true, server := some "automate.test",
          fips_git_port := some "36534", api_port := none }
        [] World.empty).2.1).fetchCalls
    = World.empty.fetchCalls ++ [("automate.test", "443")] :=
  (cert_fetch_port_defaults_to_443 false envPosix
    { fips := some true, server := some "automate.test",
      fips_git_port := some "36534", api_port := none }
    [] World.empty "automate.test" "36534" rfl rfl rfl rfl).1 rfl

/-- C8: on Windows, `start_stunnel` issues the three blocking service
invocations `-install -quiet`, `-start -quiet`, `-reload -quiet` in
strict order, each subsequent one only after the previous succeeded,
appending no handle to the caller's child-process collection.  The
blocking nature of each `.output()` call is inherent in the sequential
embedding; what is verified is the command lines, their order, the
short-circuiting, and the untouched handle collection. -/
theorem start_stunnel_windows_service_sequence (env : Env)
    (child_processes : List Child) (w : World) :
    ((start_stunnel true env child_processes w).2.2 = child_processes) ∧
    (∀ e, env.output (env.stunnel_path ++ " -install -quiet") = Except.error e →
      (start_stunnel true env child_processes w).1 = Except.error e ∧
      ((start_stunnel true env child_processes w).2.1).execCalls
        = w.execCalls ++ [env.stunnel_path ++ " -install -quiet"]) ∧
    (∀ e, env.output (env.stunnel_path ++ " -install -quiet") = Except.ok () →
      env.output (env.stunnel_path ++ " -start -quiet") = Except.error e →
      (start_stunnel true env child_processes w).1 = Except.error e ∧
      ((start_stunnel true env child_processes w).2.1).execCalls
        = w.execCalls ++ [env.stunnel_path ++ " -install -quiet",
            env.stunnel_path ++ " -start -quiet"]) ∧
    (∀ e, env.output (env.stunnel_path ++ " -install -quiet") = Except.ok () →
      env.output (env.stunnel_path ++ " -start -quiet") = Except.ok () →
      env.output (env.stunnel_path ++ " -reload -quiet") = Except.error e →
      (start_stunnel true env child_processes w).1 = Except.error e ∧
      ((start_stunnel true env child_processes w).2.1).execCalls
        = w.execCalls ++ [env.stunnel_path ++ " -install -quiet",
            env.stunnel_path ++ " -start -quiet",
            env.stunnel_path ++ " -reload -quiet"]) ∧
    (env.output (env.stunnel_path ++ " -install -quiet") = Except.ok () →
      env.output (env.stunnel_path ++ " -start -quiet") = Except.ok () →
      env.output (env.stunnel_path ++ " -reload -quiet") = Except.ok () →
      (start_stunnel true env child_processes w).1 = Except.ok () ∧
      ((start_stunnel true env child_processes w).2.1).execCalls
        = w.execCalls ++ [env.stunnel_path ++ " -install -quiet",
            env.stunnel_path ++ " -start -quiet",
            env.stunnel_path ++ " -reload -quiet"]) := by
  cases o1 : env.output (env.stunnel_path ++ " -install -quiet") <;>
    cases o2 : env.output (env.stunnel_path ++ " -start -quiet") <;>
      cases o3 : env.output (env.stunnel_path ++ " -reload -quiet") <;>
        refine ⟨?_, ?_, ?_, ?_, ?_⟩ <;>
          simp_all [start_stunnel]

/-- Witness for C8 in an environment where all three invocations
succeed. -/
theorem start_stunnel_windows_service_sequence_witness :
    (start_stunnel true envPosix [] World.empty).1 = Except.ok () ∧
    ((start_stunnel true envPosix [] World.empty).2.1).execCalls
      = World.empty.execCalls ++ [envPosix.stunnel_path ++ " -install -quiet",
          envPosix.stunnel_path ++ " -start -quiet",
          envPosix.stunnel_path ++ " -reload -quiet"] :=
  (start_stunnel_windows_service_sequence envPosix [] World.empty).2.2.2.2
    rfl rfl rfl

/-- C9 counterexample: on Windows (at home `h`, server `automate.test`,
port `36534`, empty prior world) no directory created by
`generate_stunnel_config` is the parent of the config file
`C:\opscode\chefdk\embedded\stunnel.conf` — only the home-relative
`.chefdk/etc/` and `.chefdk/log/` directories are created — so the
claim that the config file's parent directory is created on every
platform is false. -/
theorem windows_config_parent_dir_not_created :
    ¬ ∃ d ∈ (generate_stunnel_config true "h" "automate.test" "36534"
        World.empty).dirs,
      stunnel_config_path true "h" = d ++ "stunnel.conf" := by
  decide

/-- Amended C9: on non-Windows platforms config materialization creates
the parent directories of both the config file and the log file (the
created directory string, trailing separator included, composes with
the bare file name to the file's path); on Windows the log file's
parent is still created, but the config file's parent
(`C:\opscode\chefdk\embedded`) is not (see the counterexample). -/
theorem generate_config_creates_parent_dirs (home server fips_git_port : String)
    (w : World) :
    (∃ d ∈ (generate_stunnel_config false home server fips_git_port w).dirs,
        stunnel_config_path false home = d ++ "stunnel.conf") ∧
    (∃ d ∈ (generate_stunnel_config false home server fips_git_port w).dirs,
        home_dir home [".chefdk/log/stunnel.log"] = d ++ "stunnel.log") ∧
    (∃ d ∈ (generate_stunnel_config true home server fips_git_port w).dirs,
        home_dir home [".chefdk/log/stunnel.log"] = d ++ "stunnel.log") := by
  have hmem_etc : ∀ b : Bool,
      home_dir home [".chefdk/etc/"]
        ∈ (generate_stunnel_config b home server fips_git_port w).dirs := by
    intro b
    rw [generate_stunnel_config_dirs]
    exact mem_createDirAll_of_mem _ _ _ (mem_createDirAll_self _ _)
  have hmem_log : ∀ b : Bool,
      home_dir home [".chefdk/log/"]
        ∈ (generate_stunnel_config b home server fips_git_port w).dirs := by
    intro b
    rw [generate_stunnel_config_dirs]
    exact mem_createDirAll_self _ _
  have hsplit_conf :
      stunnel_config_path false home
        = home_dir home [".chefdk/etc/"] ++ "stunnel.conf" := by
    show (home ++ "/") ++ ".chefdk/etc/stunnel.conf"
      = ((home ++ "/") ++ ".chefdk/etc/") ++ "stunnel.conf"
    rw [String.append_assoc (home ++ "/") ".chefdk/etc/" "stunnel.conf"]
    exact congrArg (fun t => home ++ "/" ++ t)
      (show (".chefdk/etc/stunnel.conf" : String) = ".chefdk/etc/" ++ "stunnel.conf" from rfl)
  have hsplit_log :
      home_dir home [".chefdk/log/stunnel.log"]
        = home_dir home [".chefdk/log/"] ++ "stunnel.log" := by
    show (home ++ "/") ++ ".chefdk/log/stunnel.log"
      = ((home ++ "/") ++ ".chefdk/log/") ++ "stunnel.log"
    rw [String.append_assoc (home ++ "/") ".chefdk/log/" "stunnel.log"]
    exact congrArg (fun t => home ++ "/" ++ t)
      (show (".chefdk/log/stunnel.log" : String) = ".chefdk/log/" ++ "stunnel.log" from rfl)
  exact ⟨⟨home_dir home [".chefdk/etc/"], hmem_etc false, hsplit_conf⟩,
    ⟨home_dir home [".chefdk/log/"], hmem_log false, hsplit_log⟩,
    ⟨home_dir home [".chefdk/log/"], hmem_log true, hsplit_log⟩⟩

/-- C10: there is a single path — `.chefdk/etc/automate-nginx-cert.pem`
under the resolved home — that both appears in the generated config's
`CAfile = ` directive and is the file `write_stunnel_cert_file` writes
the fetched certificate to, so the declared trust anchor is exactly the
file the certificate writer produces. -/
theorem cafile_directive_is_cert_write_target (windows : Bool) (env : Env)
    (server fips_git_port api_port cert : String) (w w2 : World)
    (hfetch : env.copy_automate_nginx_cert server api_port = Except.ok cert) :
    ∃ certPath,
      certPath = home_dir env.home [".chefdk/etc/automate-nginx-cert.pem"] ∧
      (∃ pre,
        getFile (stunnel_config_path windows env.home)
          (generate_stunnel_config windows env.home server fips_git_port w).files
        = some (pre ++ ("CAfile = " ++ certPath ++ newline_str windows))) ∧
      getFile certPath
        ((write_stunnel_cert_file env server api_port w2).2).files
        = some cert := by
  refine ⟨home_dir env.home [".chefdk/etc/automate-nginx-cert.pem"],
    rfl, ?_, ?_⟩
  · rw [generate_stunnel_config_content]
    cases windows
    · exact ⟨_, rfl⟩
    · exact ⟨_, rfl⟩
  · unfold write_stunnel_cert_file
    rw [hfetch]
    simp [fileCreate, writeAll, getFile_setFile_self]

/-- Witness for C10 with a successfully fetched concrete certificate. -/
theorem cafile_directive_is_cert_write_target_witness :
    ∃ certPath,
      certPath = home_dir envPosix.home [".chefdk/etc/automate-nginx-cert.pem"] ∧
      (∃ pre,
        getFile (stunnel_config_path false envPosix.home)
          (generate_stunnel_config false envPosix.home "automate.test" "36534"
            World.empty).files
        = some (pre ++ ("CAfile = " ++ certPath ++ newline_str false))) ∧
      getFile certPath
        ((write_stunnel_cert_file envPosix "automate.test" "443"
          World.empty).2).files
        = some "PEMCERT" :=
  cafile_directive_is_cert_write_target false envPosix "automate.test" "36534"
    "443" "PEMCERT" World.empty World.empty rfl

end DeliveryFips
